import Mathlib

/-!
Verification of the offline-first synchronization subsystem of the
`offline-crud-apps` repository (`src/src/database/database.js`, schemas in
`src/database/schemas.js`).

The JavaScript module keeps three copies of the data: an in-memory RxDB
store (the Local Store), an AsyncStorage JSON snapshot per collection (the
Durable Cache), and a remote CouchDB replica reached over HTTP.  We embed
the module's state and operations shallowly:

* RxDB collections become Lean lists of records with a unique primary key;
  `insert` fails on a duplicate key exactly as RxDB does, `findOne.where.equals`
  becomes `List.find?` on the key, and `doc.modify` / `doc.remove` act on the
  first (unique) document with the key.
* AsyncStorage becomes optional parsed snapshots (`Option (List _)`); we model
  `JSON.stringify` / `JSON.parse` as the identity on these record lists.
* External effects that can fail (an AsyncStorage write throwing, an RxDB
  `remove` throwing) are modelled by explicit Boolean oracles passed to the
  operation, standing for the outcome of that one external call.
* Network probes become a Boolean oracle `probe : String → Bool` giving the
  outcome of the authenticated GET against a cleaned URL, and the remote
  database-existence checks an oracle `remoteOk : Collection → Bool`.
* The replication handles `businessReplication` / `articleReplication` and the
  set of replication sessions that have been created and not yet cancelled are
  tracked explicitly, so that session-lifecycle invariants are meaningful.
-/

namespace OfflineCrud

/-- Business record, from `businessSchema` in `src/database/schemas.js`:
primary key `id`, plus `name`. -/
structure Business where
  id : String
  name : String
deriving DecidableEq, Repr

/-- Article record, from `articleSchema` in `src/database/schemas.js`:
primary key `id`, plus `name`, `qty`, `selling_price`, `business_id`.
The two numeric fields are only ever stored and copied by the subsystem,
never computed with, so we carry them as integers. -/
structure Article where
  id : String
  name : String
  qty : Int
  selling_price : Int
  business_id : String
deriving DecidableEq, Repr

/-- Update payload consumed by `updateBusiness` (only `updatedData.name` is
read, `database.js` line 495). -/
structure BusinessUpdate where
  name : String
deriving DecidableEq, Repr

/-- Update payload consumed by `updateArticleData` (`updatedData.name`, `.qty`,
`.selling_price`, `.business_id` are read, `database.js` lines 525-528). -/
structure ArticleUpdate where
  name : String
  qty : Int
  selling_price : Int
  business_id : String
deriving DecidableEq, Repr

/-- Combined Local Store + Durable Cache state: the two in-memory RxDB
collections and the two AsyncStorage snapshots (`businesses_data`,
`articles_data`), the latter `none` when the key has never been written. -/
structure DBState where
  businesses : List Business
  articles : List Article
  storedBusinesses : Option (List Business)
  storedArticles : Option (List Article)
deriving DecidableEq, Repr

/-- RxDB `collection.insert` for businesses: appends the document, or fails
when a document with the same primary key already exists. -/
def insertBusiness (bs : List Business) (b : Business) : Except String (List Business) :=
  if bs.any (fun x => x.id = b.id) then
    Except.error "Document with this primary already exists"
  else
    Except.ok (bs ++ [b])

/-- RxDB `collection.insert` for articles: appends the document, or fails
when a document with the same primary key already exists. -/
def insertArticle (arts : List Article) (a : Article) : Except String (List Article) :=
  if arts.any (fun x => x.id = a.id) then
    Except.error "Document with this primary already exists"
  else
    Except.ok (arts ++ [a])

/-- `saveBusinessesToStorage` (`database.js` lines 381-392): reads the whole
collection and overwrites the `businesses_data` snapshot; any error is caught
inside the function, which then returns an empty array and leaves the
snapshot untouched.  `flushFails` is the oracle for that caught error. -/
def saveBusinessesToStorage (flushFails : Bool) (st : DBState) : DBState × List Business :=
  if flushFails then (st, [])
  else ({ st with storedBusinesses := some st.businesses }, st.businesses)

/-- `saveArticlesToStorage` (`database.js` lines 395-406): same wholesale
overwrite and internal error handling for the `articles_data` snapshot. -/
def saveArticlesToStorage (flushFails : Bool) (st : DBState) : DBState × List Article :=
  if flushFails then (st, [])
  else ({ st with storedArticles := some st.articles }, st.articles)

/-- `loadPersistedData` (`database.js` lines 344-378): parse each snapshot
(missing key yields an empty list) and insert every record into the Local
Store, swallowing per-record insert failures (duplicate-key errors are
ignored, other insert errors are logged and skipped either way). -/
def loadPersistedData (st : DBState) : DBState :=
  let bs := (st.storedBusinesses.getD []).foldl
    (fun acc b => match insertBusiness acc b with
      | Except.ok l => l
      | Except.error _ => acc) st.businesses
  let arts := (st.storedArticles.getD []).foldl
    (fun acc a => match insertArticle acc a with
      | Except.ok l => l
      | Except.error _ => acc) st.articles
  { st with businesses := bs, articles := arts }

/-- RxDB `findOne.where(key).equals(v)` followed by `doc.modify f`: rewrite the
first list element satisfying `p` using `f`, returning the modified document
and the updated collection, or `none` when no document matches. -/
def modifyFirst (p : α → Bool) (f : α → α) : List α → Option (α × List α)
  | [] => none
  | x :: xs =>
    if p x then some (f x, f x :: xs)
    else
      match modifyFirst p f xs with
      | none => none
      | some (y, ys) => some (y, x :: ys)

/-- RxDB `doc.remove()` reached through `findOne`: drop the first list element
satisfying `p`. -/
def removeFirst (p : α → Bool) : List α → List α
  | [] => []
  | x :: xs => if p x then xs else x :: removeFirst p xs

/-- `addBusiness` (`database.js` lines 440-461): rebuild the document from the
schema fields `id` and `name`, insert it (an insert failure propagates to the
caller with all state untouched), then flush the collection to storage (a
flush failure is swallowed inside `saveBusinessesToStorage`). -/
def addBusiness (flushFails : Bool) (st : DBState) (business : Business) :
    DBState × Except String Business :=
  let businessDoc : Business := { id := business.id, name := business.name }
  match insertBusiness st.businesses businessDoc with
  | Except.error e => (st, Except.error e)
  | Except.ok bs =>
    let st1 := { st with businesses := bs }
    let st2 := (saveBusinessesToStorage flushFails st1).1
    (st2, Except.ok businessDoc)

/-- `addArticle` (`database.js` lines 463-478): insert the article (failure
propagates, state untouched), then flush articles to storage. -/
def addArticle (flushFails : Bool) (st : DBState) (article : Article) :
    DBState × Except String Article :=
  match insertArticle st.articles article with
  | Except.error e => (st, Except.error e)
  | Except.ok arts =>
    let st1 := { st with articles := arts }
    let st2 := (saveArticlesToStorage flushFails st1).1
    (st2, Except.ok article)

/-- `updateBusiness` (`database.js` lines 480-508): find the business by id
(throwing `Business not found` when absent, state untouched), overwrite its
`name` from the payload, then flush businesses to storage. -/
def updateBusiness (flushFails : Bool) (st : DBState) (businessId : String)
    (updatedData : BusinessUpdate) : DBState × Except String Business :=
  match modifyFirst (fun b => b.id = businessId)
      (fun b => { b with name := updatedData.name }) st.businesses with
  | none => (st, Except.error "Business not found")
  | some (doc, bs) =>
    let st1 := { st with businesses := bs }
    let st2 := (saveBusinessesToStorage flushFails st1).1
    (st2, Except.ok doc)

/-- `updateArticleData` (`database.js` lines 510-541): find the article by id
(throwing `Article not found` when absent, state untouched), overwrite its
`name`, `qty`, `selling_price` and `business_id` from the payload, then flush
articles to storage. -/
def updateArticleData (flushFails : Bool) (st : DBState) (articleId : String)
    (updatedData : ArticleUpdate) : DBState × Except String Article :=
  match modifyFirst (fun a => a.id = articleId)
      (fun a => { a with
        name := updatedData.name,
        qty := updatedData.qty,
        selling_price := updatedData.selling_price,
        business_id := updatedData.business_id }) st.articles with
  | none => (st, Except.error "Article not found")
  | some (doc, arts) =>
    let st1 := { st with articles := arts }
    let st2 := (saveArticlesToStorage flushFails st1).1
    (st2, Except.ok doc)

/-- `deleteBusiness` (`database.js` lines 543-559): `businessDoc.remove()` (an
RxDB removal failure, oracle `removeFails`, propagates with state untouched),
then flush businesses to storage; returns a success marker. -/
def deleteBusiness (removeFails flushFails : Bool) (st : DBState)
    (businessDoc : Business) : DBState × Except String Unit :=
  if removeFails then (st, Except.error "remove failed")
  else
    let st1 := { st with
      businesses := removeFirst (fun b => b.id = businessDoc.id) st.businesses }
    let st2 := (saveBusinessesToStorage flushFails st1).1
    (st2, Except.ok ())

/-- `deleteArticleWithSync` (`database.js` lines 561-608): find the article by
id; when absent return `false` without mutating anything; otherwise
`articleDoc.remove()` (a removal failure, oracle `removeFails`, propagates with
state untouched), flush articles to storage, and return `true`.  The deferred
`forceSyncNow` fired inside a `setTimeout` swallows its own errors and touches
only the replication layer, so it does not affect this state. -/
def deleteArticleWithSync (removeFails flushFails : Bool) (st : DBState)
    (articleId : String) : DBState × Except String Bool :=
  match st.articles.find? (fun a => a.id = articleId) with
  | none => (st, Except.ok false)
  | some _ =>
    if removeFails then (st, Except.error "remove failed")
    else
      let st1 := { st with
        articles := removeFirst (fun a => a.id = articleId) st.articles }
      let st2 := (saveArticlesToStorage flushFails st1).1
      (st2, Except.ok true)

/-- `deleteArticleById` (`database.js` lines 611-613): the legacy entry point,
which simply awaits `deleteArticleWithSync(articleId)` and returns its result. -/
def deleteArticleById (removeFails flushFails : Bool) (st : DBState)
    (articleId : String) : DBState × Except String Bool :=
  deleteArticleWithSync removeFails flushFails st articleId

/-- `getBusinessById` (`database.js` lines 641-654): `findOne` on the primary
key against the Local Store only. -/
def getBusinessById (st : DBState) (businessId : String) : Option Business :=
  st.businesses.find? (fun b => b.id = businessId)

/-- `getArticleById` (`database.js` lines 656-669): `findOne` on the primary
key against the Local Store only. -/
def getArticleById (st : DBState) (articleId : String) : Option Article :=
  st.articles.find? (fun a => a.id = articleId)

/-- `getArticlesByBusinessId` (`database.js` lines 615-628): all articles whose
`business_id` equals the argument. -/
def getArticlesByBusinessId (st : DBState) (businessId : String) : List Article :=
  st.articles.filter (fun a => a.business_id = businessId)

/-! ### Endpoint discovery (`detectCouchDBUrl`, `testCouchDBUrl`) -/

/-- The two replicated collections of the database (`db.businesses`,
`db.articles`). -/
inductive Collection where
  | businesses : Collection
  | articles : Collection
deriving DecidableEq, Repr

/-- The `url.replace` of a single trailing slash performed by `testCouchDBUrl`
(`database.js` line 81), implemented on the character list so that it
evaluates by kernel reduction. -/
def stripTrailingSlash (url : String) : String :=
  if url.data.getLast? = some '/' then String.mk url.data.dropLast else url

/-- `testCouchDBUrl` (`database.js` lines 70-103): authenticated bounded-timeout
GET against `cleanUrl + "/"`.  `probe` is the network oracle giving the outcome
of that request for a given cleaned URL (a timeout or error counts as `false`,
exactly as the catch branch returns `false`). -/
def testCouchDBUrl (probe : String → Bool) (url : String) : Bool :=
  probe (stripTrailingSlash url)

/-- The `for (const url of COUCHDB_CONFIG.possibleUrls)` loop of
`detectCouchDBUrl` (`database.js` lines 54-63): probe each candidate in order,
stopping at the first success.  Also returns the list of URLs probed, in
order. -/
def detectLoop (probe : String → Bool) : List String → Option String × List String
  | [] => (none, [])
  | url :: rest =>
    if testCouchDBUrl probe url then (some url, [url])
    else
      let r := detectLoop probe rest
      (r.1, url :: r.2)

/-- Module-level mutable state of the replication layer of `database.js`:
`isOnline`, `syncEnabled`, the persisted `couchdb_url` AsyncStorage key
(`savedUrl`), `COUCHDB_CONFIG.currentUrl`, the two replication handles, and —
to make session lifecycles observable — `nextId`, a counter naming each
session ever created, together with `live`, the sessions created by
`replicateCouchDB` and not yet cancelled. -/
structure SyncState where
  isOnline : Bool
  syncEnabled : Bool
  savedUrl : Option String
  currentUrl : Option String
  businessReplication : Option Nat
  articleReplication : Option Nat
  nextId : Nat
  live : List (Collection × Nat)
deriving DecidableEq, Repr

/-- `detectCouchDBUrl` (`database.js` lines 40-67): probe the persisted
last-good URL first and return it on success; otherwise walk the candidate
list in order, persisting and returning the first success; return `none`
(the `NoEndpointAvailable` outcome) when nothing answers.  The third component
is the list of URLs probed, in order. -/
def detectCouchDBUrl (probe : String → Bool) (candidates : List String)
    (st : SyncState) : Option String × SyncState × List String :=
  match st.savedUrl with
  | some saved =>
    if testCouchDBUrl probe saved then
      (some saved, { st with currentUrl := some saved }, [saved])
    else
      match detectLoop probe candidates with
      | (some url, tr) =>
        (some url, { st with currentUrl := some url, savedUrl := some url }, saved :: tr)
      | (none, tr) => (none, st, saved :: tr)
  | none =>
    match detectLoop probe candidates with
    | (some url, tr) =>
      (some url, { st with currentUrl := some url, savedUrl := some url }, tr)
    | (none, tr) => (none, st, tr)

/-! ### Replication manager (`startSync`, `stopSync`) and the connectivity
subscription (`setupNetworkMonitoring`) -/

/-- Observable actions of the replication layer, used to state how many
discoveries and session starts an event causes. -/
inductive SyncEvent where
  | discover : SyncEvent
  | cancelSession : Collection → Nat → SyncEvent
  | startSession : Collection → Nat → SyncEvent
deriving DecidableEq, Repr

/-- `stopSync` (`database.js` lines 325-341): cancel the business replication
handle if set and null it, then likewise for the article handle.  Cancelling a
session removes it from the live set.  The surrounding try/catch means the
function never throws; in the model it is total. -/
def stopSync (st : SyncState) : SyncState × List SyncEvent :=
  let s1 :=
    match st.businessReplication with
    | some i =>
      ({ st with
          live := st.live.filter (fun s => decide (s ≠ (Collection.businesses, i))),
          businessReplication := none },
        [SyncEvent.cancelSession Collection.businesses i])
    | none => (st, ([] : List SyncEvent))
  match s1.1.articleReplication with
  | some i =>
    ({ s1.1 with
        live := s1.1.live.filter (fun s => decide (s ≠ (Collection.articles, i))),
        articleReplication := none },
      s1.2 ++ [SyncEvent.cancelSession Collection.articles i])
  | none => s1

/-- `startSync` (`database.js` lines 186-322) run to completion without
interleaving: return early when offline, sync disabled, or no current URL;
otherwise stop existing replications, test that both remote databases exist
(oracle `remoteOk`; either check failing throws before any session is
created), then create the business and the article replication sessions and
store their handles. -/
def startSync (remoteOk : Collection → Bool) (st : SyncState) :
    SyncState × List SyncEvent :=
  if !st.isOnline || !st.syncEnabled then (st, [])
  else
    match st.currentUrl with
    | none => (st, [])
    | some _ =>
      let s1 := stopSync st
      if remoteOk Collection.businesses && remoteOk Collection.articles then
        let st1 := s1.1
        let bId := st1.nextId
        let aId := st1.nextId + 1
        ({ st1 with
            businessReplication := some bId,
            articleReplication := some aId,
            live := st1.live ++ [(Collection.businesses, bId), (Collection.articles, aId)],
            nextId := st1.nextId + 2 },
          s1.2 ++ [SyncEvent.startSession Collection.businesses bId,
                   SyncEvent.startSession Collection.articles aId])
      else s1

/-- The NetInfo listener registered by `setupNetworkMonitoring`
(`database.js` lines 162-179): compute `wasOffline` from the previous state,
record the new connectivity synchronously, and on an offline-to-online
transition (with sync enabled) run one endpoint discovery followed — when it
yields a URL — by `startSync`; on a transition to offline run `stopSync`. -/
def handleNetEvent (probe : String → Bool) (candidates : List String)
    (remoteOk : Collection → Bool) (connected : Bool) (st : SyncState) :
    SyncState × List SyncEvent :=
  let wasOffline := !st.isOnline
  let st0 := { st with isOnline := connected }
  if wasOffline && connected && st0.syncEnabled then
    match detectCouchDBUrl probe candidates st0 with
    | (some _, st1, _) =>
      let s2 := startSync remoteOk st1
      (s2.1, SyncEvent.discover :: s2.2)
    | (none, st1, _) => (st1, [SyncEvent.discover])
  else if !connected then
    stopSync st0
  else (st0, [])

/-- The operations that touch the replication layer, applied atomically
(i.e. each asynchronous call runs to completion before the next begins). -/
inductive SyncOp where
  | netEvent (probe : String → Bool) (candidates : List String)
      (remoteOk : Collection → Bool) (connected : Bool) : SyncOp
  | start (remoteOk : Collection → Bool) : SyncOp
  | stop : SyncOp

/-- Apply one atomic replication-layer operation. -/
def applySyncOp (st : SyncState) : SyncOp → SyncState
  | SyncOp.netEvent probe candidates remoteOk connected =>
    (handleNetEvent probe candidates remoteOk connected st).1
  | SyncOp.start remoteOk => (startSync remoteOk st).1
  | SyncOp.stop => (stopSync st).1

/-- The module's state right after loading `database.js`: offline until the
first NetInfo fetch, sync enabled, no handles, no sessions (`database.js`
lines 30-37), and no persisted last-good URL yet. -/
def initialSyncState : SyncState :=
  { isOnline := false, syncEnabled := true, savedUrl := none, currentUrl := none,
    businessReplication := none, articleReplication := none, nextId := 0, live := [] }

/-- Run a sequence of atomic replication-layer operations from boot. -/
def runSyncOps (ops : List SyncOp) : SyncState :=
  ops.foldl applySyncOp initialSyncState

/-- Number of live (created and not cancelled) replication sessions for a
collection. -/
def liveCount (c : Collection) (st : SyncState) : Nat :=
  (st.live.filter (fun s => decide (s.1 = c))).length

/-- Number of endpoint discoveries recorded in a trace. -/
def discoverCount (tr : List SyncEvent) : Nat :=
  (tr.filter (fun e => decide (e = SyncEvent.discover))).length

/-- Number of session starts for a collection recorded in a trace. -/
def startCount (c : Collection) (tr : List SyncEvent) : Nat :=
  (tr.filter (fun e =>
    match e with
    | SyncEvent.startSession c1 _ => decide (c1 = c)
    | _ => false)).length

/-- The live sessions a replication handle accounts for. -/
def handleList (c : Collection) (h : Option Nat) : List (Collection × Nat) :=
  match h with
  | none => []
  | some i => [(c, i)]

/-- Structural session invariant of the atomic model: the live sessions are
exactly the ones the two handles point to. -/
def SessionInv (st : SyncState) : Prop :=
  st.live = handleList Collection.businesses st.businessReplication ++
    handleList Collection.articles st.articleReplication

/-! ### Interleaved model of `startSync`

`startSync` is `async`: after the synchronous prefix (the guards of lines
187-195 and the `stopSync()` of line 199) it suspends at the first `await`
(the remote existence probe, line 221), and the JavaScript event loop may run
other calls before it resumes.  On resumption it checks the two probe
responses and, when both databases exist, synchronously creates the two
replication sessions and overwrites the module-level handles (lines 224-270).
We model an invocation as two atomic phases separated by that suspension
point; the two Booleans carried by a suspended invocation are the outcomes of
its existence probes. -/

/-- Replication-layer state together with the `startSync` invocations that
have passed their synchronous prefix and are suspended at the existence
probe. -/
structure AsyncState where
  base : SyncState
  suspended : List (Bool × Bool)
deriving DecidableEq, Repr

/-- Synchronous prefix of a `startSync` invocation (`database.js` lines
187-199 up to the `await` of line 221): evaluate the guards, run `stopSync`,
and suspend awaiting the existence probes whose outcomes will be
`(okBusinesses, okArticles)`. -/
def beginStartSync (okBusinesses okArticles : Bool) (a : AsyncState) : AsyncState :=
  if !a.base.isOnline || !a.base.syncEnabled then a
  else
    match a.base.currentUrl with
    | none => a
    | some _ =>
      { base := (stopSync a.base).1,
        suspended := a.suspended ++ [(okBusinesses, okArticles)] }

/-- Resumption of the `k`-th suspended `startSync` invocation (`database.js`
lines 224-270): when either existence probe failed the invocation throws and
creates nothing; otherwise it creates the two replication sessions and
overwrites the module-level handles. -/
def finishStartSync (k : Nat) (a : AsyncState) : AsyncState :=
  match a.suspended.get? k with
  | none => a
  | some outcome =>
    let rest := a.suspended.eraseIdx k
    if outcome.1 && outcome.2 then
      let st := a.base
      { base := { st with
          businessReplication := some st.nextId,
          articleReplication := some (st.nextId + 1),
          live := st.live ++
            [(Collection.businesses, st.nextId), (Collection.articles, st.nextId + 1)],
          nextId := st.nextId + 2 },
        suspended := rest }
    else { base := a.base, suspended := rest }

/-- Interleaved-execution steps: begin a `startSync` invocation, resume a
suspended one, or run the (fully synchronous) `stopSync`. -/
inductive AsyncOp where
  | beginStart (okBusinesses okArticles : Bool) : AsyncOp
  | finishStart (k : Nat) : AsyncOp
  | stop : AsyncOp
deriving DecidableEq, Repr

/-- Apply one interleaved-execution step. -/
def applyAsyncOp (a : AsyncState) : AsyncOp → AsyncState
  | AsyncOp.beginStart okB okA => beginStartSync okB okA a
  | AsyncOp.finishStart k => finishStartSync k a
  | AsyncOp.stop => { a with base := (stopSync a.base).1 }

/-- Run a sequence of interleaved-execution steps. -/
def runAsyncOps (a : AsyncState) (ops : List AsyncOp) : AsyncState :=
  ops.foldl applyAsyncOp a

/-- A concrete online state, reached from boot by one offline-to-online
NetInfo notification whose discovery finds `http://x:5984` while the remote
existence checks fail (so no session is created yet). -/
def raceStart : SyncState :=
  (handleNetEvent (fun u => u = "http://x:5984") ["http://x:5984"]
    (fun _ => false) true initialSyncState).1

/-- The interleaving in which a second `startSync` invocation begins (running
its `stopSync` prefix) before the first one has created its sessions: both
invocations then create sessions, and only the second one's handles remain. -/
def raceRun : AsyncState :=
  runAsyncOps { base := raceStart, suspended := [] }
    [AsyncOp.beginStart true true, AsyncOp.beginStart true true,
     AsyncOp.finishStart 0, AsyncOp.finishStart 0]

/-- Sample business used to exercise concrete instances. -/
def bAcme : Business :=
  { id := "b1", name := "Acme" }

/-- Sample article used to exercise concrete instances. -/
def aWidget : Article :=
  { id := "a1", name := "Widget", qty := 5, selling_price := 999, business_id := "b1" }

/-- Sample combined state with one business and one article. -/
def sampleDB : DBState :=
  { businesses := [bAcme], articles := [aWidget],
    storedBusinesses := none, storedArticles := none }

/-! ## Helper lemmas -/

theorem find?_append_of_forall (p : α → Bool) (l1 l2 : List α)
    (h : ∀ x ∈ l1, ¬ p x = true) : (l1 ++ l2).find? p = l2.find? p := by
  rw [List.find?_append, List.find?_eq_none.mpr h]
  rfl

theorem saveArticlesToStorage_articles (ff : Bool) (st : DBState) :
    (saveArticlesToStorage ff st).1.articles = st.articles := by
  cases ff <;> rfl

theorem saveArticlesToStorage_businesses (ff : Bool) (st : DBState) :
    (saveArticlesToStorage ff st).1.businesses = st.businesses := by
  cases ff <;> rfl

theorem saveBusinessesToStorage_businesses (ff : Bool) (st : DBState) :
    (saveBusinessesToStorage ff st).1.businesses = st.businesses := by
  cases ff <;> rfl

/-- Removing the first document with a key and then searching for that key
finds nothing, provided keys are unique (the Local Store primary-key
invariant). -/
theorem find?_removeFirst_eq_none (articleId : String) :
    ∀ l : List Article, (l.map (fun a => a.id)).Nodup →
      (removeFirst (fun a => a.id = articleId) l).find? (fun a => a.id = articleId) = none := by
  intro l
  induction l with
  | nil => intro _; rfl
  | cons x xs ih =>
    intro hnd
    rw [List.map_cons, List.nodup_cons] at hnd
    by_cases hx : x.id = articleId
    · have hrw : removeFirst (fun a => decide (a.id = articleId)) (x :: xs) = xs := by
        simp [removeFirst, hx]
      rw [hrw]
      apply List.find?_eq_none.mpr
      intro y hy
      simp only [decide_eq_true_eq]
      intro hyid
      exact hnd.1 (by rw [hx, ← hyid]; exact List.mem_map_of_mem _ hy)
    · have hrw : removeFirst (fun a => decide (a.id = articleId)) (x :: xs) =
          x :: removeFirst (fun a => decide (a.id = articleId)) xs := by
        simp [removeFirst, hx]
      rw [hrw, List.find?_cons_of_neg _ (by simp [hx]), ih hnd.2]

/-- Rewriting the first match is idempotent when the rewrite preserves the
predicate and is itself idempotent. -/
theorem modifyFirst_idem (p : α → Bool) (f : α → α)
    (hp : ∀ x, p (f x) = p x) (hf : ∀ x, f (f x) = f x) :
    ∀ (l l' : List α) (d : α), modifyFirst p f l = some (d, l') →
      modifyFirst p f l' = some (d, l') := by
  intro l
  induction l with
  | nil => intro l' d h; simp [modifyFirst] at h
  | cons x xs ih =>
    intro l' d h
    by_cases hx : p x = true
    · simp only [modifyFirst, hx, if_true] at h
      obtain ⟨hd, hl⟩ := Prod.mk.injEq .. ▸ Option.some.injEq .. ▸ h
      subst hd
      subst hl
      simp [modifyFirst, hp, hx, hf]
    · rw [modifyFirst, if_neg hx] at h
      cases hm : modifyFirst p f xs with
      | none => rw [hm] at h; simp at h
      | some r =>
        rw [hm] at h
        obtain ⟨hd, hl⟩ := Prod.mk.injEq .. ▸ Option.some.injEq .. ▸ h
        subst hd
        subst hl
        rw [modifyFirst, if_neg hx, ih _ _ hm]

/-- Folding duplicate-swallowing article inserts over records disjoint from
the accumulator appends them all. -/
theorem foldl_insertArticle_of_nodup :
    ∀ (l acc : List Article), ((acc ++ l).map (fun a => a.id)).Nodup →
      l.foldl (fun acc2 a =>
        match insertArticle acc2 a with
        | Except.ok l2 => l2
        | Except.error _ => acc2) acc = acc ++ l := by
  intro l
  induction l with
  | nil => intro acc _; simp
  | cons a xs ih =>
    intro acc hnd
    have hnd' := hnd
    rw [List.map_append, List.nodup_append] at hnd'
    have hany : acc.any (fun x => x.id = a.id) = false := by
      by_contra hc
      obtain ⟨x, hx, hxa⟩ := List.any_eq_true.mp (Bool.of_not_eq_false hc)
      exact (hnd'.2.2 (List.mem_map_of_mem (fun b => b.id) hx)
        (by simp only [decide_eq_true_eq] at hxa; rw [hxa]; exact List.mem_map_of_mem _ (by simp)))
    have hins : insertArticle acc a = Except.ok (acc ++ [a]) := by
      simp [insertArticle, hany]
    rw [List.foldl_cons, hins]
    have := ih (acc ++ [a]) (by rwa [List.append_assoc, List.singleton_append])
    rw [this, List.append_assoc, List.singleton_append]

/-- Folding duplicate-swallowing business inserts over records disjoint from
the accumulator appends them all. -/
theorem foldl_insertBusiness_of_nodup :
    ∀ (l acc : List Business), ((acc ++ l).map (fun b => b.id)).Nodup →
      l.foldl (fun acc2 b =>
        match insertBusiness acc2 b with
        | Except.ok l2 => l2
        | Except.error _ => acc2) acc = acc ++ l := by
  intro l
  induction l with
  | nil => intro acc _; simp
  | cons b xs ih =>
    intro acc hnd
    have hnd' := hnd
    rw [List.map_append, List.nodup_append] at hnd'
    have hany : acc.any (fun x => x.id = b.id) = false := by
      by_contra hc
      obtain ⟨x, hx, hxb⟩ := List.any_eq_true.mp (Bool.of_not_eq_false hc)
      exact (hnd'.2.2 (List.mem_map_of_mem (fun y => y.id) hx)
        (by simp only [decide_eq_true_eq] at hxb; rw [hxb]; exact List.mem_map_of_mem _ (by simp)))
    have hins : insertBusiness acc b = Except.ok (acc ++ [b]) := by
      simp [insertBusiness, hany]
    rw [List.foldl_cons, hins]
    have := ih (acc ++ [b]) (by rwa [List.append_assoc, List.singleton_append])
    rw [this, List.append_assoc, List.singleton_append]

/-! ## Claim theorems -/

/-- C10: for every `articleId` (and every outcome of the external remove and
flush calls), the exported `deleteArticleById` returns the same result and
performs the same state changes as `deleteArticleWithSync`; the legacy name is
an exact alias of the new operation. -/
theorem deleteArticleById_alias :
    ∀ (removeFails flushFails : Bool) (st : DBState) (articleId : String),
      deleteArticleById removeFails flushFails st articleId =
        deleteArticleWithSync removeFails flushFails st articleId := by
  intro rf ff st i
  rfl

/-- C8: adding a business whose id is not already present and then looking it
up by id returns an entity equal to the input, whatever the outcome of the
durable flush. -/
theorem add_then_get_business (flushFails : Bool) (st : DBState) (b : Business)
    (h : st.businesses.any (fun x => x.id = b.id) = false) :
    getBusinessById (addBusiness flushFails st b).1 b.id = some b ∧
      (addBusiness flushFails st b).2 = Except.ok b := by
  have hnot : ∀ x ∈ st.businesses, ¬ (fun x => decide (x.id = b.id)) x = true := by
    intro x hx hc
    have : st.businesses.any (fun x => decide (x.id = b.id)) = true :=
      List.any_eq_true.mpr ⟨x, hx, hc⟩
    rw [h] at this
    exact Bool.false_ne_true this
  have hins : insertBusiness st.businesses { id := b.id, name := b.name } =
      Except.ok (st.businesses ++ [{ id := b.id, name := b.name }]) := by
    simp [insertBusiness, h]
  constructor
  · show getBusinessById _ _ = _
    rw [addBusiness]
    rw [hins]
    rw [getBusinessById]
    rw [saveBusinessesToStorage_businesses]
    rw [find?_append_of_forall _ _ _ hnot]
    simp
  · rw [addBusiness, hins]

/-- C8 witness at a concrete input. -/
theorem add_then_get_business_witness :
    getBusinessById (addBusiness false sampleDB { id := "b2", name := "Offline Co" }).1 "b2" =
        some { id := "b2", name := "Offline Co" } ∧
      (addBusiness false sampleDB { id := "b2", name := "Offline Co" }).2 =
        Except.ok { id := "b2", name := "Offline Co" } :=
  add_then_get_business false sampleDB { id := "b2", name := "Offline Co" } (by decide)

theorem stopSync_of_handles_none (st : SyncState)
    (hb : st.businessReplication = none) (ha : st.articleReplication = none) :
    stopSync st = (st, []) := by
  simp [stopSync, hb, ha]

theorem stopSync_handles_none (st : SyncState) :
    (stopSync st).1.businessReplication = none ∧
      (stopSync st).1.articleReplication = none := by
  cases hb : st.businessReplication <;> cases ha : st.articleReplication <;>
    simp [stopSync, hb, ha]

/-- C9: stopping replication when no session handle exists is an idempotent
no-op that leaves the state unchanged and cancels nothing (the function also
never throws: it is total).  Moreover `stopSync` composed with itself always
equals a single `stopSync`. -/
theorem stopSync_idempotent_noop :
    (∀ st : SyncState, st.businessReplication = none → st.articleReplication = none →
        stopSync st = (st, [])) ∧
      ∀ st : SyncState, (stopSync (stopSync st).1).1 = (stopSync st).1 := by
  constructor
  · intro st hb ha
    exact stopSync_of_handles_none st hb ha
  · intro st
    rw [stopSync_of_handles_none _ (stopSync_handles_none st).1 (stopSync_handles_none st).2]

/-- C9 witness at concrete inputs. -/
theorem stopSync_idempotent_noop_witness :
    stopSync initialSyncState = (initialSyncState, []) ∧
      (stopSync (stopSync raceRun.base).1).1 = (stopSync raceRun.base).1 :=
  ⟨stopSync_idempotent_noop.1 initialSyncState rfl rfl,
    stopSync_idempotent_noop.2 raceRun.base⟩

/-- C6: deleting an article and then looking it up by id yields not-found
(given the Local Store primary-key uniqueness invariant), and deleting an id
absent from the Local Store returns `false` without throwing and without
changing any state. -/
theorem delete_then_get_not_found :
    (∀ (flushFails : Bool) (st : DBState) (articleId : String),
        (st.articles.map (fun a => a.id)).Nodup →
        getArticleById (deleteArticleWithSync false flushFails st articleId).1 articleId =
          none) ∧
      ∀ (removeFails flushFails : Bool) (st : DBState) (articleId : String),
        st.articles.find? (fun a => a.id = articleId) = none →
        deleteArticleWithSync removeFails flushFails st articleId = (st, Except.ok false) := by
  constructor
  · intro ff st i hnd
    cases hf : st.articles.find? (fun a => a.id = i) with
    | none =>
      rw [deleteArticleWithSync, hf]
      exact hf
    | some a =>
      rw [getArticleById, deleteArticleWithSync, hf]
      simp only [Bool.false_eq_true, if_false]
      rw [saveArticlesToStorage_articles]
      exact find?_removeFirst_eq_none i st.articles hnd
  · intro rf ff st i hf
    rw [deleteArticleWithSync, hf]

/-- C6 witness at concrete inputs. -/
theorem delete_then_get_not_found_witness :
    getArticleById (deleteArticleWithSync false false sampleDB "a1").1 "a1" = none ∧
      deleteArticleWithSync true false sampleDB "missing" = (sampleDB, Except.ok false) :=
  ⟨delete_then_get_not_found.1 false sampleDB "a1" (by decide),
    delete_then_get_not_found.2 true false sampleDB "missing" (by decide)⟩

/-- C7: the update operations are idempotent: applying the same payload twice
yields exactly the same final state and result as applying it once, for
articles and for businesses alike, whatever the outcome of the durable
flush. -/
theorem update_idempotent :
    (∀ (flushFails : Bool) (st : DBState) (articleId : String) (u : ArticleUpdate),
        updateArticleData flushFails (updateArticleData flushFails st articleId u).1
            articleId u =
          updateArticleData flushFails st articleId u) ∧
      ∀ (flushFails : Bool) (st : DBState) (businessId : String) (u : BusinessUpdate),
        updateBusiness flushFails (updateBusiness flushFails st businessId u).1
            businessId u =
          updateBusiness flushFails st businessId u := by
  constructor
  · intro ff st i u
    cases hm : modifyFirst (fun a => a.id = i)
        (fun a => { a with
          name := u.name, qty := u.qty,
          selling_price := u.selling_price, business_id := u.business_id }) st.articles with
    | none =>
      have hinner : updateArticleData ff st i u = (st, Except.error "Article not found") := by
        rw [updateArticleData, hm]
      rw [hinner]
      exact hinner
    | some r =>
      have hidem := modifyFirst_idem (fun a => decide (a.id = i))
        (fun a => { a with
          name := u.name, qty := u.qty,
          selling_price := u.selling_price, business_id := u.business_id })
        (by intro x; rfl) (by intro x; rfl) st.articles r.2 r.1 (by rw [hm])
      have hinner : updateArticleData ff st i u =
          ((saveArticlesToStorage ff { st with articles := r.2 }).1, Except.ok r.1) := by
        rw [updateArticleData, hm]
      rw [hinner]
      cases ff <;> simp [updateArticleData, saveArticlesToStorage, hidem]
  · intro ff st i u
    cases hm : modifyFirst (fun b => b.id = i)
        (fun b => { b with name := u.name }) st.businesses with
    | none =>
      have hinner : updateBusiness ff st i u = (st, Except.error "Business not found") := by
        rw [updateBusiness, hm]
      rw [hinner]
      exact hinner
    | some r =>
      have hidem := modifyFirst_idem (fun b => decide (b.id = i))
        (fun b => { b with name := u.name })
        (by intro x; rfl) (by intro x; rfl) st.businesses r.2 r.1 (by rw [hm])
      have hinner : updateBusiness ff st i u =
          ((saveBusinessesToStorage ff { st with businesses := r.2 }).1, Except.ok r.1) := by
        rw [updateBusiness, hm]
      rw [hinner]
      cases ff <;> simp [updateBusiness, saveBusinessesToStorage, hidem]

/-- C5: flushing both collections to the Durable Cache and then loading the
snapshots into a fresh empty Local Store reproduces exactly the prior Local
Store content (given the primary-key uniqueness invariant of the Local
Store). -/
theorem flush_load_round_trip (st : DBState)
    (hb : (st.businesses.map (fun b => b.id)).Nodup)
    (ha : (st.articles.map (fun a => a.id)).Nodup) :
    loadPersistedData
        { businesses := [], articles := [],
          storedBusinesses :=
            (saveArticlesToStorage false (saveBusinessesToStorage false st).1).1.storedBusinesses,
          storedArticles :=
            (saveArticlesToStorage false (saveBusinessesToStorage false st).1).1.storedArticles } =
      { businesses := st.businesses, articles := st.articles,
        storedBusinesses := some st.businesses, storedArticles := some st.articles } := by
  have hsb : (saveArticlesToStorage false (saveBusinessesToStorage false st).1).1.storedBusinesses =
      some st.businesses := by
    rfl
  have hsa : (saveArticlesToStorage false (saveBusinessesToStorage false st).1).1.storedArticles =
      some st.articles := by
    rfl
  rw [hsb, hsa, loadPersistedData]
  simp only [Option.getD_some]
  rw [foldl_insertBusiness_of_nodup st.businesses [] (by simpa using hb),
    foldl_insertArticle_of_nodup st.articles [] (by simpa using ha)]
  simp

/-- C5 witness at a concrete input. -/
theorem flush_load_round_trip_witness :
    loadPersistedData
        { businesses := [], articles := [],
          storedBusinesses :=
            (saveArticlesToStorage false (saveBusinessesToStorage false sampleDB).1).1.storedBusinesses,
          storedArticles :=
            (saveArticlesToStorage false (saveBusinessesToStorage false sampleDB).1).1.storedArticles } =
      { businesses := sampleDB.businesses, articles := sampleDB.articles,
        storedBusinesses := some sampleDB.businesses,
        storedArticles := some sampleDB.articles } :=
  flush_load_round_trip sampleDB (by decide) (by decide)

/-- C4: every CRUD mutation follows the two-step policy.  For each of
`addBusiness`, `addArticle`, `updateBusiness`, `updateArticleData`,
`deleteBusiness` and `deleteArticleWithSync`: when the Local Store mutation
fails (duplicate primary key for insert, missing document for update, the
RxDB remove call throwing for delete) the operation aborts with the error
raised to the caller and both the Local Store and the Durable Cache snapshots
untouched; when the mutation succeeds but the durable flush fails
(`flushFails = true`), the operation still returns successfully, the
in-memory mutation is kept (not rolled back), and the Durable Cache snapshots
are untouched (the flush failure is only logged). -/
theorem crud_two_step_policy :
    (∀ (ff : Bool) (st : DBState) (b : Business),
        st.businesses.any (fun x => x.id = b.id) = true →
        addBusiness ff st b =
          (st, Except.error "Document with this primary already exists")) ∧
    (∀ (st : DBState) (b : Business),
        st.businesses.any (fun x => x.id = b.id) = false →
        addBusiness true st b =
          ({ st with businesses := st.businesses ++ [{ id := b.id, name := b.name }] },
            Except.ok { id := b.id, name := b.name })) ∧
    (∀ (ff : Bool) (st : DBState) (a : Article),
        st.articles.any (fun x => x.id = a.id) = true →
        addArticle ff st a =
          (st, Except.error "Document with this primary already exists")) ∧
    (∀ (st : DBState) (a : Article),
        st.articles.any (fun x => x.id = a.id) = false →
        addArticle true st a =
          ({ st with articles := st.articles ++ [a] }, Except.ok a)) ∧
    (∀ (ff : Bool) (st : DBState) (i : String) (u : BusinessUpdate),
        modifyFirst (fun b => b.id = i) (fun b => { b with name := u.name })
            st.businesses = none →
        updateBusiness ff st i u = (st, Except.error "Business not found")) ∧
    (∀ (st : DBState) (i : String) (u : BusinessUpdate) (d : Business) (bs : List Business),
        modifyFirst (fun b => b.id = i) (fun b => { b with name := u.name })
            st.businesses = some (d, bs) →
        updateBusiness true st i u = ({ st with businesses := bs }, Except.ok d)) ∧
    (∀ (ff : Bool) (st : DBState) (i : String) (u : ArticleUpdate),
        modifyFirst (fun a => a.id = i)
            (fun a => { a with
              name := u.name, qty := u.qty,
              selling_price := u.selling_price, business_id := u.business_id })
            st.articles = none →
        updateArticleData ff st i u = (st, Except.error "Article not found")) ∧
    (∀ (st : DBState) (i : String) (u : ArticleUpdate) (d : Article) (arts : List Article),
        modifyFirst (fun a => a.id = i)
            (fun a => { a with
              name := u.name, qty := u.qty,
              selling_price := u.selling_price, business_id := u.business_id })
            st.articles = some (d, arts) →
        updateArticleData true st i u = ({ st with articles := arts }, Except.ok d)) ∧
    (∀ (ff : Bool) (st : DBState) (b : Business),
        deleteBusiness true ff st b = (st, Except.error "remove failed")) ∧
    (∀ (st : DBState) (b : Business),
        deleteBusiness false true st b =
          ({ st with businesses := removeFirst (fun x => x.id = b.id) st.businesses },
            Except.ok ())) ∧
    (∀ (ff : Bool) (st : DBState) (i : String) (a : Article),
        st.articles.find? (fun x => x.id = i) = some a →
        deleteArticleWithSync true ff st i = (st, Except.error "remove failed")) ∧
    ∀ (st : DBState) (i : String) (a : Article),
      st.articles.find? (fun x => x.id = i) = some a →
      deleteArticleWithSync false true st i =
        ({ st with articles := removeFirst (fun x => x.id = i) st.articles },
          Except.ok true) := by
  refine ⟨?_, ?_, ?_, ?_, ?_, ?_, ?_, ?_, ?_, ?_, ?_, ?_⟩
  · intro ff st b h
    rw [addBusiness, insertBusiness]
    simp [h]
  · intro st b h
    rw [addBusiness, insertBusiness]
    simp [h, saveBusinessesToStorage]
  · intro ff st a h
    rw [addArticle, insertArticle]
    simp [h]
  · intro st a h
    rw [addArticle, insertArticle]
    simp [h, saveArticlesToStorage]
  · intro ff st i u h
    rw [updateBusiness, h]
  · intro st i u d bs h
    rw [updateBusiness, h]
    rfl
  · intro ff st i u h
    rw [updateArticleData, h]
  · intro st i u d arts h
    rw [updateArticleData, h]
    rfl
  · intro ff st b
    rfl
  · intro st b
    rfl
  · intro ff st i a h
    rw [deleteArticleWithSync, h]
    rfl
  · intro st i a h
    rw [deleteArticleWithSync, h]
    rfl

/-- C4 witness: each branch of the policy exercised at a concrete input. -/
theorem crud_two_step_policy_witness :
    addBusiness false sampleDB bAcme =
        (sampleDB, Except.error "Document with this primary already exists") ∧
      addBusiness true sampleDB { id := "b2", name := "Beta" } =
        ({ sampleDB with businesses := sampleDB.businesses ++ [{ id := "b2", name := "Beta" }] },
          Except.ok { id := "b2", name := "Beta" }) ∧
      addArticle false sampleDB aWidget =
        (sampleDB, Except.error "Document with this primary already exists") ∧
      addArticle true sampleDB
          { id := "a2", name := "Gadget", qty := 1, selling_price := 5, business_id := "b1" } =
        ({ sampleDB with articles :=
            sampleDB.articles ++
              [{ id := "a2", name := "Gadget", qty := 1, selling_price := 5, business_id := "b1" }] },
          Except.ok
            { id := "a2", name := "Gadget", qty := 1, selling_price := 5, business_id := "b1" }) ∧
      updateBusiness false sampleDB "nope" { name := "X" } =
        (sampleDB, Except.error "Business not found") ∧
      updateBusiness true sampleDB "b1" { name := "Acme2" } =
        ({ sampleDB with businesses := [{ id := "b1", name := "Acme2" }] },
          Except.ok { id := "b1", name := "Acme2" }) ∧
      updateArticleData false sampleDB "nope"
          { name := "X", qty := 0, selling_price := 0, business_id := "b1" } =
        (sampleDB, Except.error "Article not found") ∧
      updateArticleData true sampleDB "a1"
          { name := "Widget2", qty := 6, selling_price := 7, business_id := "b1" } =
        ({ sampleDB with articles :=
            [{ id := "a1", name := "Widget2", qty := 6, selling_price := 7, business_id := "b1" }] },
          Except.ok
            { id := "a1", name := "Widget2", qty := 6, selling_price := 7, business_id := "b1" }) ∧
      deleteBusiness true false sampleDB bAcme = (sampleDB, Except.error "remove failed") ∧
      deleteBusiness false true sampleDB bAcme =
        ({ sampleDB with businesses := removeFirst (fun x => x.id = bAcme.id) sampleDB.businesses },
          Except.ok ()) ∧
      deleteArticleWithSync true false sampleDB "a1" =
        (sampleDB, Except.error "remove failed") ∧
      deleteArticleWithSync false true sampleDB "a1" =
        ({ sampleDB with articles := removeFirst (fun x => x.id = "a1") sampleDB.articles },
          Except.ok true) :=
  ⟨crud_two_step_policy.1 false sampleDB bAcme (by decide),
    crud_two_step_policy.2.1 sampleDB { id := "b2", name := "Beta" } (by decide),
    crud_two_step_policy.2.2.1 false sampleDB aWidget (by decide),
    crud_two_step_policy.2.2.2.1 sampleDB
      { id := "a2", name := "Gadget", qty := 1, selling_price := 5, business_id := "b1" }
      (by decide),
    crud_two_step_policy.2.2.2.2.1 false sampleDB "nope" { name := "X" } (by decide),
    crud_two_step_policy.2.2.2.2.2.1 sampleDB "b1" { name := "Acme2" }
      { id := "b1", name := "Acme2" } [{ id := "b1", name := "Acme2" }] (by decide),
    crud_two_step_policy.2.2.2.2.2.2.1 false sampleDB "nope"
      { name := "X", qty := 0, selling_price := 0, business_id := "b1" } (by decide),
    crud_two_step_policy.2.2.2.2.2.2.2.1 sampleDB "a1"
      { name := "Widget2", qty := 6, selling_price := 7, business_id := "b1" }
      { id := "a1", name := "Widget2", qty := 6, selling_price := 7, business_id := "b1" }
      [{ id := "a1", name := "Widget2", qty := 6, selling_price := 7, business_id := "b1" }]
      (by decide),
    crud_two_step_policy.2.2.2.2.2.2.2.2.1 false sampleDB bAcme,
    crud_two_step_policy.2.2.2.2.2.2.2.2.2.1 sampleDB bAcme,
    crud_two_step_policy.2.2.2.2.2.2.2.2.2.2.1 false sampleDB "a1" aWidget (by decide),
    crud_two_step_policy.2.2.2.2.2.2.2.2.2.2.2 sampleDB "a1" aWidget (by decide)⟩

/-- The candidate loop returns the first candidate whose probe succeeds, and
probes exactly the failing prefix followed by that first success. -/
theorem detectLoop_eq (probe : String → Bool) :
    ∀ l : List String,
      detectLoop probe l =
        (l.find? (fun u => testCouchDBUrl probe u),
          l.takeWhile (fun u => !testCouchDBUrl probe u) ++
            (l.find? (fun u => testCouchDBUrl probe u)).toList) := by
  intro l
  induction l with
  | nil => rfl
  | cons u rest ih =>
    by_cases hu : testCouchDBUrl probe u = true
    · rw [detectLoop, if_pos hu, List.find?_cons_of_pos _ hu]
      rw [List.takeWhile_cons_of_neg (by simp [hu])]
      rfl
    · rw [detectLoop, if_neg hu, ih]
      rw [List.find?_cons_of_neg _ hu]
      rw [List.takeWhile_cons_of_pos (by simp [Bool.of_not_eq_true hu])]
      rfl

/-- A successful discovery persists the returned URL as both the saved and
the current URL. -/
theorem detect_persists (probe : String → Bool) (candidates : List String)
    (st : SyncState) (y : String)
    (h : (detectCouchDBUrl probe candidates st).1 = some y) :
    (detectCouchDBUrl probe candidates st).2.1.savedUrl = some y ∧
      (detectCouchDBUrl probe candidates st).2.1.currentUrl = some y := by
  cases hd : detectLoop probe candidates with
  | mk r1 r2 =>
    cases hs : st.savedUrl with
    | some s =>
      by_cases ht : testCouchDBUrl probe s = true
      · rw [detectCouchDBUrl, hs] at h ⊢
        simp only [ht, if_true] at h ⊢
        cases h
        exact ⟨rfl, rfl⟩
      · rw [detectCouchDBUrl, hs, hd] at h ⊢
        simp only [ht, Bool.false_eq_true, if_false] at h ⊢
        cases r1 with
        | none => exact Option.noConfusion h
        | some url =>
          cases h
          exact ⟨rfl, rfl⟩
    | none =>
      rw [detectCouchDBUrl, hs, hd] at h ⊢
      cases r1 with
      | none => exact Option.noConfusion h
      | some url =>
        cases h
        exact ⟨rfl, rfl⟩

/-- When a last-good URL is saved, the next discovery probes it first. -/
theorem detect_head_of_saved (probe : String → Bool) (candidates : List String)
    (st : SyncState) (y : String) (hs : st.savedUrl = some y) :
    (detectCouchDBUrl probe candidates st).2.2.head? = some y := by
  rw [detectCouchDBUrl, hs]
  by_cases ht : testCouchDBUrl probe y = true
  · simp [ht]
  · simp only [ht, Bool.false_eq_true, if_false]
    cases hd : detectLoop probe candidates with
    | mk r1 r2 =>
      cases r1 <;> rfl

/-- C1: endpoint discovery probes the persisted last-good URL first and
returns it when its probe succeeds; otherwise it probes the candidates
sequentially in configured order (the probe trace is the failing prefix
followed by the first success), returns the first candidate whose probe
succeeds and persists it as the new last-good and current URL; when nothing
answers it returns the `NoEndpointAvailable` outcome (`none`); and after a
discovery returned `y`, a subsequent discovery probes `y` before any other
candidate. -/
theorem detectCouchDBUrl_spec :
    (∀ (probe : String → Bool) (candidates : List String) (st : SyncState) (u : String),
        st.savedUrl = some u → testCouchDBUrl probe u = true →
        detectCouchDBUrl probe candidates st =
          (some u, { st with currentUrl := some u }, [u])) ∧
    (∀ (probe : String → Bool) (candidates : List String) (st : SyncState),
        st.savedUrl = none →
        (detectCouchDBUrl probe candidates st).1 =
            candidates.find? (fun v => testCouchDBUrl probe v) ∧
          (detectCouchDBUrl probe candidates st).2.2 =
            candidates.takeWhile (fun v => !testCouchDBUrl probe v) ++
              (candidates.find? (fun v => testCouchDBUrl probe v)).toList) ∧
    (∀ (probe : String → Bool) (candidates : List String) (st : SyncState) (u : String),
        st.savedUrl = some u → testCouchDBUrl probe u = false →
        (detectCouchDBUrl probe candidates st).1 =
            candidates.find? (fun v => testCouchDBUrl probe v) ∧
          (detectCouchDBUrl probe candidates st).2.2 =
            u :: (candidates.takeWhile (fun v => !testCouchDBUrl probe v) ++
              (candidates.find? (fun v => testCouchDBUrl probe v)).toList)) ∧
    (∀ (probe : String → Bool) (candidates : List String) (st : SyncState),
        (∀ u, st.savedUrl = some u → testCouchDBUrl probe u = false) →
        (∀ v ∈ candidates, testCouchDBUrl probe v = false) →
        (detectCouchDBUrl probe candidates st).1 = none) ∧
    (∀ (probe : String → Bool) (candidates : List String) (st : SyncState) (y : String),
        (detectCouchDBUrl probe candidates st).1 = some y →
        (detectCouchDBUrl probe candidates st).2.1.savedUrl = some y ∧
          (detectCouchDBUrl probe candidates st).2.1.currentUrl = some y) ∧
    ∀ (probe probe2 : String → Bool) (candidates candidates2 : List String)
        (st : SyncState) (y : String),
      (detectCouchDBUrl probe candidates st).1 = some y →
      (detectCouchDBUrl probe2 candidates2
          (detectCouchDBUrl probe candidates st).2.1).2.2.head? = some y := by
  refine ⟨?_, ?_, ?_, ?_, ?_, ?_⟩
  · intro probe candidates st u hs ht
    rw [detectCouchDBUrl, hs]
    simp [ht]
  · intro probe candidates st hs
    rw [detectCouchDBUrl, hs, detectLoop_eq]
    cases hf : candidates.find? (fun v => testCouchDBUrl probe v) with
    | none => exact ⟨rfl, rfl⟩
    | some url => exact ⟨rfl, rfl⟩
  · intro probe candidates st u hs ht
    rw [detectCouchDBUrl, hs]
    simp only [ht, Bool.false_eq_true, if_false]
    rw [detectLoop_eq]
    cases hf : candidates.find? (fun v => testCouchDBUrl probe v) with
    | none => exact ⟨rfl, rfl⟩
    | some url => exact ⟨rfl, rfl⟩
  · intro probe candidates st hsaved hall
    have hfind : candidates.find? (fun v => testCouchDBUrl probe v) = none :=
      List.find?_eq_none.mpr (fun v hv => by rw [hall v hv]; exact Bool.false_ne_true)
    cases hs : st.savedUrl with
    | some s =>
      rw [detectCouchDBUrl, hs]
      simp only [hsaved s hs, Bool.false_eq_true, if_false]
      rw [detectLoop_eq, hfind]
    | none =>
      rw [detectCouchDBUrl, hs, detectLoop_eq, hfind]
  · intro probe candidates st y h
    exact detect_persists probe candidates st y h
  · intro probe probe2 candidates candidates2 st y h
    exact detect_head_of_saved probe2 candidates2 _ y
      (detect_persists probe candidates st y h).1

/-- C1 witness: candidates `[X, Y]` where only `Y` answers; discovery returns
`Y`, persists it, and a second discovery probes `Y` first. -/
theorem detectCouchDBUrl_spec_witness :
    ((detectCouchDBUrl (fun u => u = "http://y:5984")
          ["http://x:5984", "http://y:5984"] initialSyncState).1 =
        (["http://x:5984", "http://y:5984"].find?
          (fun v => testCouchDBUrl (fun u => u = "http://y:5984") v)) ∧
      (detectCouchDBUrl (fun u => u = "http://y:5984")
          ["http://x:5984", "http://y:5984"] initialSyncState).2.1.savedUrl =
        some "http://y:5984" ∧
      (detectCouchDBUrl (fun u => u = "http://y:5984") ["http://x:5984", "http://y:5984"]
          ((detectCouchDBUrl (fun u => u = "http://y:5984")
            ["http://x:5984", "http://y:5984"] initialSyncState).2.1)).2.2.head? =
        some "http://y:5984") ∧
      detectCouchDBUrl (fun u => u = "http://y:5984") ["http://x:5984", "http://y:5984"]
          { initialSyncState with savedUrl := some "http://y:5984" } =
        (some "http://y:5984",
          { initialSyncState with
              savedUrl := some "http://y:5984", currentUrl := some "http://y:5984" },
          ["http://y:5984"]) ∧
      (detectCouchDBUrl (fun _ => false) ["http://x:5984", "http://y:5984"]
          initialSyncState).1 = none :=
  ⟨⟨(detectCouchDBUrl_spec.2.1 (fun u => u = "http://y:5984")
        ["http://x:5984", "http://y:5984"] initialSyncState rfl).1,
    (detectCouchDBUrl_spec.2.2.2.2.1 (fun u => u = "http://y:5984")
        ["http://x:5984", "http://y:5984"] initialSyncState "http://y:5984" (by decide)).1,
    detectCouchDBUrl_spec.2.2.2.2.2 (fun u => u = "http://y:5984")
      (fun u => u = "http://y:5984") ["http://x:5984", "http://y:5984"]
      ["http://x:5984", "http://y:5984"] initialSyncState "http://y:5984" (by decide)⟩,
    detectCouchDBUrl_spec.1 (fun u => u = "http://y:5984")
      ["http://x:5984", "http://y:5984"]
      { initialSyncState with savedUrl := some "http://y:5984" } "http://y:5984" rfl
      (by decide),
    detectCouchDBUrl_spec.2.2.2.1 (fun _ => false) ["http://x:5984", "http://y:5984"]
      initialSyncState (fun u hu => by cases hu) (fun v _ => rfl)⟩

/-- Under the session invariant, `stopSync` cancels exactly the two
handle-referenced sessions, leaving no live session and no handle. -/
theorem stopSync_shape (st : SyncState) (h : SessionInv st) :
    (stopSync st).1 =
      { st with businessReplication := none, articleReplication := none, live := [] } := by
  obtain ⟨io, se, su, cu, br, ar, ni, lv⟩ := st
  unfold SessionInv at h
  simp only at h
  subst h
  cases br <;> cases ar <;> simp [stopSync, handleList, List.filter]

theorem stopSync_inv (st : SyncState) (h : SessionInv st) :
    SessionInv (stopSync st).1 := by
  rw [stopSync_shape st h]
  rfl

theorem detect_inv (probe : String → Bool) (candidates : List String)
    (st : SyncState) (h : SessionInv st) :
    SessionInv (detectCouchDBUrl probe candidates st).2.1 := by
  cases hd : detectLoop probe candidates with
  | mk r1 r2 =>
    cases hs : st.savedUrl with
    | some s =>
      by_cases ht : testCouchDBUrl probe s = true
      · rw [detectCouchDBUrl, hs]
        simp only [ht, if_true]
        exact h
      · rw [detectCouchDBUrl, hs, hd]
        simp only [ht, Bool.false_eq_true, if_false]
        cases r1
        · exact h
        · exact h
    | none =>
      rw [detectCouchDBUrl, hs, hd]
      cases r1
      · exact h
      · exact h

theorem startSync_inv (remoteOk : Collection → Bool) (st : SyncState)
    (h : SessionInv st) : SessionInv (startSync remoteOk st).1 := by
  rw [startSync]
  by_cases hg : (!st.isOnline || !st.syncEnabled) = true
  · simp only [hg, if_true]
    exact h
  · simp only [hg, Bool.false_eq_true, if_false]
    cases hc : st.currentUrl with
    | none => exact h
    | some url =>
      by_cases hr : (remoteOk Collection.businesses && remoteOk Collection.articles) = true
      · simp only [hr, if_true]
        rw [stopSync_shape st h]
        rfl
      · simp only [hr, Bool.false_eq_true, if_false]
        exact stopSync_inv st h

theorem applySyncOp_inv (st : SyncState) (op : SyncOp) (h : SessionInv st) :
    SessionInv (applySyncOp st op) := by
  cases op with
  | start remoteOk => exact startSync_inv remoteOk st h
  | stop => exact stopSync_inv st h
  | netEvent probe candidates remoteOk connected =>
    rw [applySyncOp, handleNetEvent]
    by_cases hcond : (!st.isOnline && connected &&
        ({ st with isOnline := connected } : SyncState).syncEnabled) = true
    · simp only [hcond, if_true]
      have h0 : SessionInv ({ st with isOnline := connected } : SyncState) := h
      cases hd : detectCouchDBUrl probe candidates { st with isOnline := connected } with
      | mk o rest =>
        cases rest with
        | mk st1 tr =>
          have h1 : SessionInv st1 := by
            have := detect_inv probe candidates { st with isOnline := connected } h0
            rw [hd] at this
            exact this
          cases o
          · exact h1
          · exact startSync_inv remoteOk st1 h1
    · simp only [hcond, Bool.false_eq_true, if_false]
      by_cases hc2 : (!connected) = true
      · simp only [hc2, if_true]
        exact stopSync_inv { st with isOnline := connected } h
      · simp only [hc2, Bool.false_eq_true, if_false]
        exact h

theorem runSyncOps_inv (ops : List SyncOp) : SessionInv (runSyncOps ops) := by
  rw [runSyncOps]
  have h : ∀ st : SyncState, SessionInv st → SessionInv (ops.foldl applySyncOp st) := by
    induction ops with
    | nil => intro st h; exact h
    | cons op rest ih => intro st h; exact ih _ (applySyncOp_inv st op h)
  exact h initialSyncState rfl

theorem liveCount_le_one_of_inv (st : SyncState) (h : SessionInv st) (c : Collection) :
    liveCount c st ≤ 1 := by
  unfold liveCount
  unfold SessionInv at h
  rw [h]
  cases c <;> cases hb : st.businessReplication <;> cases ha : st.articleReplication <;>
    simp [handleList, List.filter]

/-- C3 counterexample: under the cooperative interleaving the code actually
admits (each `startSync` suspends at its remote existence probe after running
its `stopSync` prefix), two overlapping `startSync` invocations from a
reachable online state leave two live replication sessions per collection:
each invocation's `stopSync` ran before the other had created its sessions,
and the second invocation's handle assignment orphans the first invocation's
still-running sessions without cancelling them. -/
theorem startSync_interleaving_two_live_sessions :
    liveCount Collection.businesses raceRun.base = 2 ∧
      liveCount Collection.articles raceRun.base = 2 ∧
      raceRun.base.businessReplication = some 2 ∧
      raceRun.base.articleReplication = some 3 := by
  refine ⟨by decide, by decide, by decide, by decide⟩

/-- C3 (amended): provided `startSync` invocations do not overlap — every
invocation of `startSync` or `stopSync` runs to completion before the next
begins — every state reachable from boot has at most one live replication
session per collection, because the creating path of `startSync` always
cancels the existing sessions first. -/
theorem atomic_at_most_one_session_per_collection :
    ∀ ops : List SyncOp,
      liveCount Collection.businesses (runSyncOps ops) ≤ 1 ∧
        liveCount Collection.articles (runSyncOps ops) ≤ 1 :=
  fun ops =>
    ⟨liveCount_le_one_of_inv _ (runSyncOps_inv ops) _,
      liveCount_le_one_of_inv _ (runSyncOps_inv ops) _⟩

theorem stopSync_trace_counts (st : SyncState) (c : Collection) :
    discoverCount (stopSync st).2 = 0 ∧ startCount c (stopSync st).2 = 0 := by
  cases hb : st.businessReplication <;> cases ha : st.articleReplication <;>
    simp [stopSync, hb, ha, discoverCount, startCount, List.filter]

theorem startSync_trace_counts (remoteOk : Collection → Bool) (st : SyncState)
    (c : Collection) :
    discoverCount (startSync remoteOk st).2 = 0 ∧
      startCount c (startSync remoteOk st).2 ≤ 1 := by
  rw [startSync]
  by_cases hg : (!st.isOnline || !st.syncEnabled) = true
  · simp [hg, discoverCount, startCount]
  · simp only [hg, Bool.false_eq_true, if_false]
    cases hc : st.currentUrl with
    | none => simp [discoverCount, startCount]
    | some url =>
      by_cases hr : (remoteOk Collection.businesses && remoteOk Collection.articles) = true
      · simp only [hr, if_true]
        constructor
        · have h0 := (stopSync_trace_counts st c).1
          rw [discoverCount] at h0
          rw [discoverCount, List.filter_append, List.length_append, h0]
          simp [List.filter]
        · have h0 := (stopSync_trace_counts st c).2
          rw [startCount] at h0
          rw [startCount, List.filter_append, List.length_append, h0]
          cases c <;> simp [List.filter]
      · simp only [hr, Bool.false_eq_true, if_false]
        exact ⟨(stopSync_trace_counts st c).1,
          by rw [(stopSync_trace_counts st c).2]; exact Nat.zero_le 1⟩

theorem stopSync_isOnline (st : SyncState) : (stopSync st).1.isOnline = st.isOnline := by
  cases hb : st.businessReplication <;> cases ha : st.articleReplication <;>
    simp [stopSync, hb, ha]

theorem startSync_isOnline (remoteOk : Collection → Bool) (st : SyncState) :
    (startSync remoteOk st).1.isOnline = st.isOnline := by
  rw [startSync]
  by_cases hg : (!st.isOnline || !st.syncEnabled) = true
  · simp [hg]
  · simp only [hg, Bool.false_eq_true, if_false]
    cases hc : st.currentUrl with
    | none => rfl
    | some url =>
      by_cases hr : (remoteOk Collection.businesses && remoteOk Collection.articles) = true
      · simp only [hr, if_true]
        exact stopSync_isOnline st
      · simp only [hr, Bool.false_eq_true, if_false]
        exact stopSync_isOnline st

theorem detect_isOnline (probe : String → Bool) (candidates : List String) (st : SyncState) :
    (detectCouchDBUrl probe candidates st).2.1.isOnline = st.isOnline := by
  cases hd : detectLoop probe candidates with
  | mk r1 r2 =>
    cases hs : st.savedUrl with
    | some s =>
      by_cases ht : testCouchDBUrl probe s = true
      · rw [detectCouchDBUrl, hs]
        simp [ht]
      · rw [detectCouchDBUrl, hs, hd]
        simp only [ht, Bool.false_eq_true, if_false]
        cases r1 <;> rfl
    | none =>
      rw [detectCouchDBUrl, hs, hd]
      cases r1 <;> rfl

theorem handleNetEvent_isOnline (probe : String → Bool) (candidates : List String)
    (remoteOk : Collection → Bool) (connected : Bool) (st : SyncState) :
    (handleNetEvent probe candidates remoteOk connected st).1.isOnline = connected := by
  rw [handleNetEvent]
  by_cases hcond : (!st.isOnline && connected &&
      ({ st with isOnline := connected } : SyncState).syncEnabled) = true
  · simp only [hcond, if_true]
    cases hd : detectCouchDBUrl probe candidates { st with isOnline := connected } with
    | mk o rest =>
      cases rest with
      | mk st1 tr =>
        have h1 : st1.isOnline = connected := by
          have hio := detect_isOnline probe candidates { st with isOnline := connected }
          rw [hd] at hio
          exact hio
        cases o
        · exact h1
        · rw [startSync_isOnline]
          exact h1
  · simp only [hcond, Bool.false_eq_true, if_false]
    by_cases hc2 : (!connected) = true
    · simp only [hc2, if_true]
      rw [stopSync_isOnline]
    · simp only [hc2, Bool.false_eq_true, if_false]

theorem handleNetEvent_same_online (probe : String → Bool) (candidates : List String)
    (remoteOk : Collection → Bool) (st : SyncState) (h : st.isOnline = true) :
    handleNetEvent probe candidates remoteOk true st = (st, []) := by
  obtain ⟨io, se, su, cu, br, ar, ni, lv⟩ := st
  simp only at h
  subst h
  rfl

theorem netEvent_offline_online_counts (probe : String → Bool) (candidates : List String)
    (remoteOk : Collection → Bool) (st : SyncState)
    (h1 : st.isOnline = false) (h2 : st.syncEnabled = true) (c : Collection) :
    discoverCount (handleNetEvent probe candidates remoteOk true st).2 = 1 ∧
      startCount c (handleNetEvent probe candidates remoteOk true st).2 ≤ 1 := by
  rw [handleNetEvent]
  have hcond : (!st.isOnline && true &&
      ({ st with isOnline := true } : SyncState).syncEnabled) = true := by
    simp only [h1]
    show (!false && true && st.syncEnabled) = true
    simp [h2]
  simp only [hcond, if_true]
  cases hd : detectCouchDBUrl probe candidates { st with isOnline := true } with
  | mk o rest =>
    cases rest with
    | mk st1 tr =>
      cases o with
      | none =>
        refine ⟨rfl, ?_⟩
        cases c <;> simp [startCount, List.filter]
      | some url =>
        constructor
        · have h0 := (startSync_trace_counts remoteOk st1 c).1
          rw [discoverCount] at h0 ⊢
          rw [List.filter_cons]
          simp [h0]
        · have h0 := (startSync_trace_counts remoteOk st1 c).2
          rw [startCount] at h0 ⊢
          rw [List.filter_cons]
          simpa using h0

/-- C2: the connectivity subscription is edge-triggered.  An offline-to-online
notification (with sync enabled) performs exactly one endpoint discovery and
then starts at most one replication session per collection; even when that
online notification fires twice in quick succession the combined behaviour
still performs exactly one discovery and starts at most one session per
collection, because the listener updates the online flag synchronously before
its asynchronous work; a repeated notification of the same online state emits
no action at all and leaves the state unchanged; and an online-to-offline
notification immediately stops all replication sessions, leaving no live
session and no handle. -/
theorem networkListener_edge_triggered :
    (∀ (probe : String → Bool) (candidates : List String) (remoteOk : Collection → Bool)
        (st : SyncState), st.isOnline = false → st.syncEnabled = true →
        discoverCount (handleNetEvent probe candidates remoteOk true st).2 = 1 ∧
          startCount Collection.businesses
              (handleNetEvent probe candidates remoteOk true st).2 ≤ 1 ∧
          startCount Collection.articles
              (handleNetEvent probe candidates remoteOk true st).2 ≤ 1) ∧
    (∀ (probe probe2 : String → Bool) (candidates candidates2 : List String)
        (remoteOk remoteOk2 : Collection → Bool) (st : SyncState),
        st.isOnline = false → st.syncEnabled = true →
        discoverCount ((handleNetEvent probe candidates remoteOk true st).2 ++
            (handleNetEvent probe2 candidates2 remoteOk2 true
              (handleNetEvent probe candidates remoteOk true st).1).2) = 1 ∧
          startCount Collection.businesses
              ((handleNetEvent probe candidates remoteOk true st).2 ++
                (handleNetEvent probe2 candidates2 remoteOk2 true
                  (handleNetEvent probe candidates remoteOk true st).1).2) ≤ 1 ∧
          startCount Collection.articles
              ((handleNetEvent probe candidates remoteOk true st).2 ++
                (handleNetEvent probe2 candidates2 remoteOk2 true
                  (handleNetEvent probe candidates remoteOk true st).1).2) ≤ 1) ∧
    (∀ (probe : String → Bool) (candidates : List String) (remoteOk : Collection → Bool)
        (st : SyncState), st.isOnline = true →
        handleNetEvent probe candidates remoteOk true st = (st, [])) ∧
    ∀ (probe : String → Bool) (candidates : List String) (remoteOk : Collection → Bool)
        (st : SyncState), SessionInv st →
      (handleNetEvent probe candidates remoteOk false st).1.businessReplication = none ∧
        (handleNetEvent probe candidates remoteOk false st).1.articleReplication = none ∧
        (handleNetEvent probe candidates remoteOk false st).1.live = [] := by
  refine ⟨?_, ?_, ?_, ?_⟩
  · intro probe candidates remoteOk st h1 h2
    exact
      ⟨(netEvent_offline_online_counts probe candidates remoteOk st h1 h2
          Collection.businesses).1,
        (netEvent_offline_online_counts probe candidates remoteOk st h1 h2
          Collection.businesses).2,
        (netEvent_offline_online_counts probe candidates remoteOk st h1 h2
          Collection.articles).2⟩
  · intro probe probe2 candidates candidates2 remoteOk remoteOk2 st h1 h2
    have hOn : (handleNetEvent probe candidates remoteOk true st).1.isOnline = true :=
      handleNetEvent_isOnline probe candidates remoteOk true st
    rw [handleNetEvent_same_online probe2 candidates2 remoteOk2 _ hOn]
    simp only [List.append_nil]
    exact
      ⟨(netEvent_offline_online_counts probe candidates remoteOk st h1 h2
          Collection.businesses).1,
        (netEvent_offline_online_counts probe candidates remoteOk st h1 h2
          Collection.businesses).2,
        (netEvent_offline_online_counts probe candidates remoteOk st h1 h2
          Collection.articles).2⟩
  · intro probe candidates remoteOk st h
    exact handleNetEvent_same_online probe candidates remoteOk st h
  · intro probe candidates remoteOk st hInv
    rw [handleNetEvent]
    have hcond : (!st.isOnline && false &&
        ({ st with isOnline := false } : SyncState).syncEnabled) = false := by
      simp
    simp only [hcond, Bool.false_eq_true, if_false, Bool.not_false, if_true]
    rw [stopSync_shape { st with isOnline := false } hInv]
    exact ⟨rfl, rfl, rfl⟩

/-- C2 witness at concrete inputs. -/
theorem networkListener_edge_triggered_witness :
    (discoverCount (handleNetEvent (fun u => u = "http://x:5984") ["http://x:5984"]
          (fun _ => true) true initialSyncState).2 = 1 ∧
        startCount Collection.businesses
            (handleNetEvent (fun u => u = "http://x:5984") ["http://x:5984"]
              (fun _ => true) true initialSyncState).2 ≤ 1) ∧
      discoverCount ((handleNetEvent (fun u => u = "http://x:5984") ["http://x:5984"]
            (fun _ => true) true initialSyncState).2 ++
          (handleNetEvent (fun u => u = "http://x:5984") ["http://x:5984"]
            (fun _ => true) true
            (handleNetEvent (fun u => u = "http://x:5984") ["http://x:5984"]
              (fun _ => true) true initialSyncState).1).2) = 1 ∧
      handleNetEvent (fun u => u = "http://x:5984") ["http://x:5984"] (fun _ => true)
          true raceStart = (raceStart, []) ∧
      (handleNetEvent (fun u => u = "http://x:5984") ["http://x:5984"] (fun _ => true)
          false raceStart).1.live = [] :=
  ⟨⟨(networkListener_edge_triggered.1 (fun u => u = "http://x:5984") ["http://x:5984"]
        (fun _ => true) initialSyncState rfl rfl).1,
    (networkListener_edge_triggered.1 (fun u => u = "http://x:5984") ["http://x:5984"]
        (fun _ => true) initialSyncState rfl rfl).2.1⟩,
    (networkListener_edge_triggered.2.1 (fun u => u = "http://x:5984")
        (fun u => u = "http://x:5984") ["http://x:5984"] ["http://x:5984"]
        (fun _ => true) (fun _ => true) initialSyncState rfl rfl).1,
    networkListener_edge_triggered.2.2.1 (fun u => u = "http://x:5984") ["http://x:5984"]
      (fun _ => true) raceStart (by decide),
    (networkListener_edge_triggered.2.2.2 (fun u => u = "http://x:5984") ["http://x:5984"]
        (fun _ => true) raceStart (by unfold SessionInv; decide)).2.2⟩

end OfflineCrud
